import Mathlib

/-
Verification of the Kimi_Agent repository (React/Vite trading dashboard
scaffolds plus SQL schema and installer scripts).

Each namespace below is a shallow embedding of one source file of the
repository: pure rendering logic becomes Lean functions, component state
updates become explicit state-passing functions, JS numbers become Rat,
JS strings become String, and `T | undefined` values become Option T.
JavaScript truthiness is modelled explicitly where the source relies on
it (the || operator on numbers and on possibly-undefined fields).
-/

set_option maxRecDepth 4096

/-! ## Monitoring page (first variant), src/unnamed/part_004

The page streams simulated log lines: a raw setInterval timer fires every
2000 ms, appends one formatted line to the `logs` state list, and truncates
to the most recent 50 lines via slice(-50). -/

namespace Monitoring

/-- Interval in milliseconds of the simulated log-streaming timer
(`setInterval(..., 2000)` in the source). -/
def logTickMs : Nat := 2000

/-- One tick of the log state update from the source:
`const newLogs = [...prev, randomLog];
if (newLogs.length > 50) return newLogs.slice(-50); return newLogs;`
(slice(-50) keeps the last 50 elements). -/
def appendLog (prev : List String) (entry : String) : List String :=
  let newLogs := prev ++ [entry]
  if newLogs.length > 50 then newLogs.drop (newLogs.length - 50) else newLogs

/-- Initial state of the `logs` list (`useState<string[]>([])`). -/
def initialLogs : List String := []

/-- The refetch interval of the monitoring/status query on this page. -/
def statusRefetchMs : Nat := 2000

/-- Endpoint polled by the monitoring page query. -/
def statusPath : String := "/api/v1/monitoring/status"

end Monitoring

/-! ## SentimentGauge component, src/unnamed/part_017

The gauge clamps its input to [-1, 1] before computing the needle angle,
but computes the textual sentiment label from the raw input. -/

namespace SentimentGauge

/-- From the source: `const normalizedValue = Math.max(-1, Math.min(1, value))`. -/
def normalizedValue (value : ℚ) : ℚ := max (-1) (min 1 value)

/-- From the source: `const angle = (normalizedValue + 1) * 90` (0 to 180 degrees). -/
def needleAngle (value : ℚ) : ℚ := (normalizedValue value + 1) * 90

/-- From the source, the sentiment label is computed from the raw `value`
(not from `normalizedValue`):
if value greater than 0.5 then Very Bullish, greater than 0.2 Bullish,
less than -0.5 Very Bearish, less than -0.2 Bearish, else Neutral. -/
def sentimentLabel (value : ℚ) : String :=
  if value > 1/2 then "Very Bullish"
  else if value > 1/5 then "Bullish"
  else if value < -(1/2) then "Very Bearish"
  else if value < -(1/5) then "Bearish"
  else "Neutral"

/-- Modelled from the claim wording (not from the source): the clamp
function clamp(value, -1, 1), used to compare the source needle angle
against the formula stated in the claim. -/
def specClamp (value : ℚ) : ℚ := max (-1) (min 1 value)

end SentimentGauge

/-! ## JavaScript truthiness helpers

The panels use the JS pattern `x || fallback`. On a number, 0 is falsy;
on an object or an array (even an empty array), the value is truthy; on
an undefined field, the fallback is taken. -/

/-- JS `a || b` on numbers: 0 is falsy. -/
def jsOrNat (a b : Nat) : Nat := if a = 0 then b else a

/-- Character-level string prefix test (kernel-evaluable). -/
def strHasPre (pre s : String) : Bool := pre.data.isPrefixOf s.data

/-- Character-level containment of a pattern in a character list. -/
def charsContain (pat : List Char) : List Char → Bool
  | [] => pat.isEmpty
  | c :: rest => pat.isPrefixOf (c :: rest) || charsContain pat rest

/-! ## AgentStatusPanel, src/trading-agent-pro-v2/frontend/src/components/AgentStatusPanel.tsx

Polls GET /api/v1/consensus/latest every 10 s and renders either the
fetched consensus or a hardcoded demo consensus while data is undefined. -/

namespace AgentStatusPanel

structure AgentOpinion where
  agent_name : String
  vote : String
  confidence : ℚ
  reasoning : String
  deriving DecidableEq, Repr

structure ConsensusData where
  symbol : String
  direction : String
  consensus_score : ℚ
  agreement_count : Nat
  total_agents : Nat
  is_actionable : Bool
  opinions : List (String × AgentOpinion)
  reasons : List String
  deriving DecidableEq, Repr

/-- Endpoint of the panel query (`axios.get(API_URL + /consensus/latest)`). -/
def apiPath : String := "/api/v1/consensus/latest"

/-- `refetchInterval: 10000` in the source. -/
def refetchMs : Nat := 10000

/-- The hardcoded fallback demo data from the source (comment in the
source: Fallback demo data when API is not yet connected). -/
def fallbackConsensus : ConsensusData :=
  { symbol := "BTC/USDT"
    direction := "NEUTRAL"
    consensus_score := 0
    agreement_count := 0
    total_agents := 5
    is_actionable := false
    opinions :=
      [ ("DataAgent", ⟨"DataAgent", "NEUTRAL", 9/10, "Data OK: fresh feeds"⟩)
      , ("TechnicalAgent", ⟨"TechnicalAgent", "NEUTRAL", 0, "Awaiting data..."⟩)
      , ("SentimentAgent", ⟨"SentimentAgent", "NEUTRAL", 3/10, "Neutral sentiment"⟩)
      , ("MLAgent", ⟨"MLAgent", "NEUTRAL", 0, "Models loading..."⟩)
      , ("RiskAgent", ⟨"RiskAgent", "NEUTRAL", 1, "Risk OK"⟩) ]
    reasons := ["System initializing..."] }

/-- `const consensus: ConsensusData = consensusData || fallback`; an object
is always truthy in JS, so a present response is used unchanged. -/
def rendered (consensusData : Option ConsensusData) : ConsensusData :=
  consensusData.getD fallbackConsensus

end AgentStatusPanel

/-! ## PerformancePanel, concatenated into src/trading-agent-pro-v2/frontend/src/pages/Calendar.tsx

Polls GET /api/v1/performance every 30 s; while data is undefined it
renders an all-zero metrics record with is_paused false. -/

namespace PerformancePanel

structure PerformanceData where
  win_rate : ℚ
  total_trades : Nat
  total_pnl : ℚ
  max_drawdown_pct : ℚ
  sharpe_ratio : ℚ
  avg_rr : ℚ
  is_paused : Bool
  deriving DecidableEq, Repr

/-- Endpoint of the panel query (`axios.get(API_URL + /performance)`). -/
def apiPath : String := "/api/v1/performance"

/-- `refetchInterval: 30000` in the source. -/
def refetchMs : Nat := 30000

/-- The fallback object from the source: all metrics 0, is_paused false. -/
def fallbackPerf : PerformanceData :=
  { win_rate := 0, total_trades := 0, total_pnl := 0, max_drawdown_pct := 0
    sharpe_ratio := 0, avg_rr := 0, is_paused := false }

/-- `const perf: PerformanceData = data || fallback`. -/
def rendered (data : Option PerformanceData) : PerformanceData :=
  data.getD fallbackPerf

end PerformancePanel

/-! ## MistakeLog, concatenated into src/trading-agent-pro-v2/frontend/src/pages/Calendar.tsx

Polls GET /api/v1/mistakes every 60 s; each field is defaulted
individually with optional chaining plus ||. -/

namespace MistakeLog

structure Mistake where
  type : String
  count : Nat
  last_seen : String
  severity : ℚ
  deriving DecidableEq, Repr

structure MistakeData where
  total_mistakes : Nat
  patterns : List Mistake
  corrective_actions : List String
  deriving DecidableEq, Repr

/-- Endpoint of the panel query (`axios.get(API_URL + /mistakes)`). -/
def apiPath : String := "/api/v1/mistakes"

/-- `refetchInterval: 60000` in the source. -/
def refetchMs : Nat := 60000

/-- The per-field defaulting from the source:
total_mistakes from `data?.total_mistakes || 0` (jsOrNat since 0 is falsy),
patterns from `data?.patterns || []` (an array is always truthy),
corrective_actions from `data?.corrective_actions || []`. -/
def rendered (data : Option MistakeData) : MistakeData :=
  match data with
  | none => { total_mistakes := 0, patterns := [], corrective_actions := [] }
  | some d =>
    { total_mistakes := jsOrNat d.total_mistakes 0
      patterns := d.patterns
      corrective_actions := d.corrective_actions }

/-- The corrective-actions section maps over
`mistakes.corrective_actions.slice(0, 3)`. -/
def displayedActions (m : MistakeData) : List String :=
  m.corrective_actions.take 3

end MistakeLog

/-! ## EvolutionLog, src/unnamed/part_007

Polls GET /api/v1/evolution/recent every 60 s; renders `data || []`, and
the timeline maps over `events.slice(0, 8)`. -/

namespace EvolutionLog

structure EvolutionEvent where
  id : Nat
  timestamp : String
  event_type : String
  model_name : Option String
  change_summary : String
  triggered_by : String
  deriving DecidableEq, Repr

/-- Endpoint of the panel query (`axios.get(API_URL + /evolution/recent)`). -/
def apiPath : String := "/api/v1/evolution/recent"

/-- `refetchInterval: 60000` in the source. -/
def refetchMs : Nat := 60000

/-- `const events: EvolutionEvent[] = data || []`. -/
def events (data : Option (List EvolutionEvent)) : List EvolutionEvent :=
  data.getD []

/-- The timeline body maps over `events.slice(0, 8)`. -/
def renderedEvents (data : Option (List EvolutionEvent)) : List EvolutionEvent :=
  (events data).take 8

/-- A trivial event used to probe the slice(0, 8) truncation. -/
def mkEvent (n : Nat) : EvolutionEvent :=
  { id := n, timestamp := "2024-01-01T00:00:00Z", event_type := "retrain"
    model_name := none, change_summary := "retrained", triggered_by := "system" }

/-- Nine distinct fetched events (more than the 8 the timeline shows). -/
def nineEvents : List EvolutionEvent := (List.range 9).map mkEvent

end EvolutionLog

/-! ## Analysis page (fetching variant), src/unnamed/part_003

Fetches GET /api/v1/analysis/SYMBOL every 60 s. The page body is a
three-way dispatch:
`isLoading && !data ? spinner : error ? inline error panel : tab content`.
The error panel is titled Analysis Failed and names the selected pair. -/

namespace AnalysisPage

structure LiquidityZone where
  id : String
  pair : String
  type : String
  price : ℚ
  strength : String
  volume : ℚ
  deriving DecidableEq, Repr

structure OrderBlock where
  id : String
  pair : String
  type : String
  top : ℚ
  bottom : ℚ
  timestamp : String
  deriving DecidableEq, Repr

structure FVG where
  id : String
  pair : String
  type : String
  top : ℚ
  bottom : ℚ
  status : String
  deriving DecidableEq, Repr

structure PricePattern where
  name : String
  pair : String
  timeframe : String
  confidence : ℚ
  direction : String
  deriving DecidableEq, Repr

structure AnalysisData where
  symbol : String
  liquidityZones : List LiquidityZone
  orderBlocks : List OrderBlock
  fvgs : List FVG
  patterns : List PricePattern
  deriving DecidableEq, Repr

/-- The query state exposed by useQuery that the page branches on. -/
structure QueryState where
  isLoading : Bool
  data : Option AnalysisData
  hasError : Bool
  deriving DecidableEq, Repr

inductive Tab where
  | liquidity
  | orderblocks
  | fvg
  | priceaction
  deriving DecidableEq, Repr

/-- What the page body shows: the loading spinner, the inline error panel
(with its title text and the selected pair it names), or the content of
the active tab rendered from the defaulted analysis data. -/
inductive View where
  | loadingView
  | errorView (title : String) (pair : String)
  | contentView (tab : Tab) (shown : AnalysisData)
  deriving DecidableEq, Repr

/-- Endpoint template of the page query
(`axios.get(API_URL + /analysis/ + selectedPair)`). -/
def apiPathTemplate : String := "/api/v1/analysis/{symbol}"

/-- `refetchInterval: 60000` in the source. -/
def refetchMs : Nat := 60000

/-- `const analysis: AnalysisData = data || { symbol: selectedPair,
liquidityZones: [], orderBlocks: [], fvgs: [], patterns: [] }`. -/
def analysisOf (s : QueryState) (selectedPair : String) : AnalysisData :=
  s.data.getD
    { symbol := selectedPair, liquidityZones := [], orderBlocks := []
      fvgs := [], patterns := [] }

/-- The page body dispatch from the source:
`isLoading && !data ? spinner : error ? error panel : tab content`. -/
def render (s : QueryState) (selectedPair : String) (activeTab : Tab) : View :=
  if s.isLoading && s.data.isNone then View.loadingView
  else if s.hasError then View.errorView "Analysis Failed" selectedPair
  else View.contentView activeTab (analysisOf s selectedPair)

/-- Whether a view shows any liquidity-zone, order-block, FVG or
price-action content (only the content view does). -/
def showsDomainContent : View → Bool
  | View.contentView _ _ => true
  | _ => false

end AnalysisPage

/-! ## Calendar page (fetching variant), src/unnamed/part_005

Fetches GET /api/v1/calendar every 5 minutes with `data: events = []`,
then reads `events.events || []` and filters by the selected impact. -/

namespace CalendarPage

structure CalendarEvent where
  id : String
  title : String
  country : String
  impact : String
  time : String
  actual : Option String
  forecast : Option String
  previous : Option String
  currency : String
  deriving DecidableEq, Repr

/-- Shape of the JSON value bound to `events` after the query: either an
object that has an events field, an object without one, or a bare JSON
array of events. (The query default `= []` makes the undefined case a
bare empty array.) -/
inductive CalendarResponse where
  | objWithEvents (events : List CalendarEvent)
  | objNoEvents
  | bareArray (items : List CalendarEvent)
  deriving DecidableEq, Repr

/-- Endpoint of the page query (`axios.get(API_URL + /calendar)`). -/
def apiPath : String := "/api/v1/calendar"

/-- `refetchInterval: 300000` (5 minutes) in the source. -/
def refetchMs : Nat := 300000

/-- JS property access `events.events`: only an object with an events
field yields the array; on a bare array or an object without the field it
is undefined. -/
def eventsField : CalendarResponse → Option (List CalendarEvent)
  | CalendarResponse.objWithEvents es => some es
  | CalendarResponse.objNoEvents => none
  | CalendarResponse.bareArray _ => none

/-- `const { data: events = [] } = useQuery(...)`: an undefined query
result is replaced by the bare empty array. -/
def eventsValue (data : Option CalendarResponse) : CalendarResponse :=
  data.getD (CalendarResponse.bareArray [])

/-- `const calendarEvents = events.events || []`. -/
def calendarEvents (data : Option CalendarResponse) : List CalendarEvent :=
  (eventsField (eventsValue data)).getD []

/-- `filter === all || e.impact === filter` from the source. -/
def impactMatches (filter : String) (e : CalendarEvent) : Bool :=
  filter == "all" || e.impact == filter

/-- `const filteredEvents = calendarEvents.filter(...)`: the events the
table body maps over. -/
def filteredEvents (data : Option CalendarResponse) (filter : String) :
    List CalendarEvent :=
  (calendarEvents data).filter (impactMatches filter)

end CalendarPage

/-! ## Dashboard page, src/trading-agent-pro-v2/frontend/src/pages/Dashboard.tsx

This page performs no HTTP request at all: its market data, system status
and recent signals are useState initial values hardcoded in the component,
and the page maps over those lists. -/

namespace ProV2Dashboard

structure MarketData where
  symbol : String
  price : ℚ
  change : ℚ
  changePercent : ℚ
  deriving DecidableEq, Repr

structure RecentSignal where
  id : Nat
  pair : String
  type : String
  confidence : Nat
  time : String
  status : String
  deriving DecidableEq, Repr

/-- The hardcoded `useState<MarketData[]>` initial value the page renders. -/
def marketDataInit : List MarketData :=
  [ ⟨"EURUSD", 1.0845, 0.0023, 0.21⟩
  , ⟨"GBPUSD", 1.2634, -0.0012, -0.09⟩
  , ⟨"XAUUSD", 2034.56, 12.40, 0.61⟩
  , ⟨"BTCUSD", 52340.00, 1240.50, 2.43⟩
  , ⟨"ETHUSD", 2890.25, 45.30, 1.59⟩ ]

/-- The hardcoded recent-signals `useState` initial value the page renders. -/
def recentSignalsInit : List RecentSignal :=
  [ ⟨1, "EURUSD", "BUY", 87, "2 min ago", "active"⟩
  , ⟨2, "XAUUSD", "SELL", 72, "15 min ago", "pending"⟩
  , ⟨3, "GBPUSD", "BUY", 91, "32 min ago", "completed"⟩ ]

end ProV2Dashboard

/-! ## Signals page, src/trading-agent-pro-v2/frontend/src/pages/Signals.tsx

No HTTP request: the four trading signals are a hardcoded useState initial
value; the page filters and maps over them. -/

namespace ProV2Signals

structure TradingSignal where
  id : String
  pair : String
  type : String
  entry : ℚ
  stopLoss : ℚ
  takeProfit : ℚ
  confidence : Nat
  timestamp : String
  status : String
  strategy : String
  timeframe : String
  deriving DecidableEq, Repr

/-- The hardcoded `useState<TradingSignal[]>` initial value. -/
def signalsInit : List TradingSignal :=
  [ ⟨"SIG-001", "EURUSD", "BUY", 1.0845, 1.0820, 1.0890, 87,
      "2024-01-15 14:30:00", "active", "Liquidity Sweep + FVG", "H1"⟩
  , ⟨"SIG-002", "XAUUSD", "SELL", 2035.50, 2045.00, 2015.00, 72,
      "2024-01-15 13:15:00", "pending", "Order Block Rejection", "H4"⟩
  , ⟨"SIG-003", "GBPUSD", "BUY", 1.2630, 1.2600, 1.2680, 91,
      "2024-01-15 11:45:00", "completed", "Breaker Block + MSS", "M15"⟩
  , ⟨"SIG-004", "BTCUSD", "BUY", 52100.00, 51500.00, 53500.00, 78,
      "2024-01-15 10:20:00", "active", "Fair Value Gap Fill", "H1"⟩ ]

/-- `signals.filter(s => filter === all || s.status === filter)`. -/
def filteredSignals (filter : String) : List TradingSignal :=
  signalsInit.filter (fun s => filter == "all" || s.status == filter)

end ProV2Signals

/-! ## Analysis page, src/trading-agent-pro-v2/frontend/src/pages/Analysis.tsx

No HTTP request: liquidity zones, order blocks, FVGs and price-action
patterns are hardcoded const arrays in the component. -/

namespace ProV2Analysis

/-- Lengths of the four hardcoded const arrays the page renders
(liquidityZones, orderBlocks, fvgs, priceActionPatterns). -/
def hardcodedListLengths : List Nat := [3, 2, 2, 3]

end ProV2Analysis

/-! ## Calendar page, src/trading-agent-pro-v2/frontend/src/pages/Calendar.tsx

No HTTP request for its events: the eight economic events are a hardcoded
useState initial value; a raw 1-second setInterval drives the clock. -/

namespace ProV2Calendar

structure EconomicEvent where
  id : String
  time : String
  currency : String
  event : String
  impact : String
  forecast : Option String
  previous : Option String
  deriving DecidableEq, Repr

/-- The hardcoded `useState<EconomicEvent[]>` initial value. -/
def eventsInit : List EconomicEvent :=
  [ ⟨"1", "08:00 AM", "EUR", "German CPI m/m", "high", some "0.3%", some "0.2%"⟩
  , ⟨"2", "08:30 AM", "GBP", "UK GDP m/m", "high", some "0.1%", some "-0.1%"⟩
  , ⟨"3", "10:00 AM", "EUR", "EU Economic Forecasts", "medium", some "-", some "-"⟩
  , ⟨"4", "02:30 PM", "USD", "CPI m/m", "high", some "0.3%", some "0.4%"⟩
  , ⟨"5", "02:30 PM", "USD", "Core CPI m/m", "high", some "0.3%", some "0.3%"⟩
  , ⟨"6", "04:00 PM", "USD", "Crude Oil Inventories", "medium", some "-1.2M", some "-2.1M"⟩
  , ⟨"7", "06:00 PM", "USD", "FOMC Meeting Minutes", "high", some "-", some "-"⟩
  , ⟨"8", "08:30 PM", "USD", "Fed Chair Powell Speaks", "high", some "-", some "-"⟩ ]

end ProV2Calendar

/-! ## Monitoring page (second variant), src/unnamed/part_004

The second Monitoring component concatenated into part_004 issues no HTTP
request: its log list and service list are hardcoded in-component state
(a useState initial value and a const array), and start/pause/stop
buttons mutate that state locally. -/

namespace MonitoringV2

structure LogEntry where
  id : String
  timestamp : String
  level : String
  message : String
  source : String
  deriving DecidableEq, Repr

structure Service where
  name : String
  status : String
  deriving DecidableEq, Repr

/-- The hardcoded `useState<LogEntry[]>` initial value the page renders. -/
def logsInit : List LogEntry :=
  [ ⟨"1", "10:00:00", "info", "System initialized", "Main"⟩
  , ⟨"2", "10:00:01", "success", "Browser automation ready", "Browser"⟩
  , ⟨"3", "10:00:02", "success", "Telegram collector connected", "Telegram"⟩
  , ⟨"4", "10:00:03", "info", "AI models loaded", "AI Engine"⟩ ]

/-- The hardcoded const services array the page maps over (icons elided). -/
def servicesList : List Service :=
  [ ⟨"AI Agent", "online"⟩
  , ⟨"Browser Automation", "online"⟩
  , ⟨"Telegram Collector", "online"⟩
  , ⟨"Forex Calendar", "online"⟩
  , ⟨"Market Data", "online"⟩
  , ⟨"Analysis Engine", "online"⟩ ]

end MonitoringV2

/-! ## Per-page data sources (claim C1)

One record per UI page component in the repository, listing the paths of
the HTTP requests the component issues (empty when the component performs
no request and renders hardcoded in-component state instead). Files
holding several concatenated page components get one record per
component. Path templates keep their parameter segments; query strings
are dropped. The trading-agent pages request through the useApi hook
module (the part_018 api client built on the /api/v1 base); the hooks
useMarketWideSentiment and useTwitterData have no definition in the tree,
so no path is listed for them, but the pages still fetch through the
other hooks recorded here. -/

structure PageSource where
  page : String
  file : String
  restPaths : List String
  deriving DecidableEq, Repr

def uiPages : List PageSource :=
  [ ⟨"Dashboard", "trading-agent-pro-v2/frontend/src/pages/Dashboard.tsx", []⟩
  , ⟨"Signals", "trading-agent-pro-v2/frontend/src/pages/Signals.tsx", []⟩
  , ⟨"Analysis", "trading-agent-pro-v2/frontend/src/pages/Analysis.tsx", []⟩
  , ⟨"Calendar", "trading-agent-pro-v2/frontend/src/pages/Calendar.tsx", []⟩
  , ⟨"Chat", "trading-agent-pro-v2/frontend/src/pages/Chat.tsx",
      [ "/api/v1/chat/message", "/api/v1/agent/{action}"
      , "/api/v1/chat/analyze-image" ]⟩
  , ⟨"Chat (second variant)", "trading-agent-pro-v2/frontend/src/pages/Chat.tsx",
      [ "/api/v1/settings/current", "/api/v1/chat/history", "/api/v1/agents"
      , "/api/v1/chat/message", "/api/v1/agent/{action}"
      , "/api/v1/chat/analyze-image" ]⟩
  , ⟨"Settings", "trading-agent-pro-v2/frontend/src/pages/Settings.tsx",
      [ "/api/v1/settings/current", "/api/v1/settings/update" ]⟩
  , ⟨"Dashboard", "unnamed/part_002",
      [ "/api/v1/market/prices", "/api/v1/health", "/api/v1/swarm/stats" ]⟩
  , ⟨"Analysis", "unnamed/part_003", [ "/api/v1/analysis/{symbol}" ]⟩
  , ⟨"Monitoring", "unnamed/part_004", [ "/api/v1/monitoring/status" ]⟩
  , ⟨"Monitoring (second variant)", "unnamed/part_004", []⟩
  , ⟨"Calendar", "unnamed/part_005", [ "/api/v1/calendar" ]⟩
  , ⟨"Chat", "unnamed/part_015",
      [ "/api/v1/chat/sessions", "/api/v1/chat/session/{sessionId}/messages"
      , "/api/v1/chat/session/create", "/api/v1/chat/session/{sessionId}"
      , "/api/v1/chat/image", "/api/v1/chat/message" ]⟩
  , ⟨"Dashboard", "trading-agent/frontend/src/pages/Dashboard.tsx",
      [ "/api/v1/market/prices", "/api/v1/signals/active"
      , "/api/v1/news/market" ]⟩
  , ⟨"Settings", "trading-agent/frontend/src/pages/Dashboard.tsx",
      [ "/api/v1/config", "/api/v1/settings/update"
      , "/api/v1/settings/test-connection/{provider}" ]⟩
  , ⟨"Analysis", "trading-agent/frontend/src/pages/Dashboard.tsx",
      [ "/api/v1/analysis/{symbol}" ]⟩
  , ⟨"Sentiment", "trading-agent/frontend/src/pages/Sentiment.tsx",
      [ "/api/v1/sentiment/{symbol}", "/api/v1/social/reddit/{symbol}"
      , "/api/v1/news/market" ]⟩
  , ⟨"Signals", "trading-agent/frontend/src/pages/Signals.tsx",
      [ "/api/v1/signals/active", "/api/v1/signals/generate/{symbol}" ]⟩ ]

/-- Claim C1 reading of a page: its displayed data comes from some REST
request rather than purely from hardcoded in-component state. -/
def fetchesFromRest (p : PageSource) : Bool := !p.restPaths.isEmpty

/-! ## SQL schema (claim C3)

From the TimescaleDB init script concatenated into src/unnamed/part_010
and from
src/trading-agent-pro-v2/backend/migrations/002_agent_evolution.sql.
Each CREATE TABLE becomes one record: column names, primary-key columns,
and foreign keys. The schema contains no UNIQUE constraint and no CHECK
constraint, so the only uniqueness constraints are the primary keys. -/

namespace SqlSchema

structure ForeignKey where
  column : String
  refTable : String
  refColumn : String
  deriving DecidableEq, Repr

structure Table where
  name : String
  columns : List String
  primaryKey : List String
  foreignKeys : List ForeignKey
  deriving DecidableEq, Repr

def market_data_ohlcv : Table :=
  { name := "market_data_ohlcv"
    columns := ["time", "symbol", "timeframe", "open", "high", "low",
                "close", "volume", "source"]
    primaryKey := ["time", "symbol", "timeframe"]
    foreignKeys := [] }

def trading_signals : Table :=
  { name := "trading_signals"
    columns := ["signal_id", "created_at", "symbol", "timeframe",
                "direction", "entry_price", "stop_loss", "take_profit_1",
                "take_profit_2", "take_profit_3", "overall_confidence",
                "confluence_score", "xgb_win_prob", "lstm_forecast_24h",
                "regime", "reasoning", "status", "feature_vector",
                "indicators"]
    primaryKey := ["signal_id"]
    foreignKeys := [] }

def signal_outcomes : Table :=
  { name := "signal_outcomes"
    columns := ["outcome_id", "signal_id", "closed_at", "exit_price",
                "outcome", "pnl_pct", "pnl_r", "holding_hours",
                "exit_reason"]
    primaryKey := ["outcome_id"]
    foreignKeys := [⟨"signal_id", "trading_signals", "signal_id"⟩] }

def model_performance_metrics : Table :=
  { name := "model_performance_metrics"
    columns := ["recorded_at", "symbol", "model_type", "win_rate_20",
                "win_rate_50", "win_rate_100", "sharpe_30d",
                "profit_factor", "avg_r_multiple", "total_trades",
                "model_version"]
    primaryKey := ["recorded_at", "symbol", "model_type"]
    foreignKeys := [] }

def agent_evolution : Table :=
  { name := "agent_evolution"
    columns := ["id", "timestamp", "event_type", "model_name",
                "change_summary", "metrics_before", "metrics_after",
                "triggered_by"]
    primaryKey := ["id"]
    foreignKeys := [] }

def trading_mistakes : Table :=
  { name := "trading_mistakes"
    columns := ["id", "timestamp", "symbol", "direction", "mistake_type",
                "severity", "description", "corrective_action",
                "trade_entry_price", "trade_exit_price", "trade_pnl",
                "indicators_snapshot"]
    primaryKey := ["id"]
    foreignKeys := [] }

def performance_snapshots : Table :=
  { name := "performance_snapshots"
    columns := ["id", "timestamp", "win_rate", "total_trades",
                "winning_trades", "losing_trades", "total_pnl",
                "max_drawdown_pct", "sharpe_ratio", "avg_rr",
                "profit_factor"]
    primaryKey := ["id"]
    foreignKeys := [] }

/-- The second CREATE TABLE IF NOT EXISTS trading_signals, from the
migration file (a distinct definition from the init-script one). -/
def trading_signals_migration : Table :=
  { name := "trading_signals"
    columns := ["id", "timestamp", "symbol", "direction", "signal_type",
                "entry_price", "stop_loss", "take_profit", "position_size",
                "risk_pct", "risk_reward", "confidence", "consensus_score",
                "agreement_count", "status", "exit_price", "exit_reason",
                "pnl", "reasons"]
    primaryKey := ["id"]
    foreignKeys := [] }

/-- All CREATE TABLE statements of the schema, in source order. -/
def schemaTables : List Table :=
  [ market_data_ohlcv, trading_signals, signal_outcomes
  , model_performance_metrics, agent_evolution, trading_mistakes
  , performance_snapshots, trading_signals_migration ]

/-- A nontrivial uniqueness constraint: a composite primary key over
domain columns (a single auto-generated surrogate id column is trivial;
the schema has no UNIQUE constraints besides the primary keys). -/
def hasNontrivialUniqueness (t : Table) : Bool := 2 ≤ t.primaryKey.length

/-- All foreign keys of the schema, with their owning table name. -/
def schemaForeignKeys : List (String × ForeignKey) :=
  schemaTables.foldr (fun t acc => t.foreignKeys.map (fun k => (t.name, k)) ++ acc) []

end SqlSchema

/-! ## Periodic mechanisms in the frontend (claim C5)

One record per periodic mechanism in the frontend sources: every
TanStack Query refetchInterval option and every raw setInterval timer.
All four raw timers update component state from their callback and are
cleared with clearInterval in the effect cleanup. -/

inductive PeriodicMechanism where
  | queryRefetch (intervalMs : Nat)
  | rawTimer (intervalMs : Nat) (purpose : String)
  deriving DecidableEq, Repr

structure PeriodicUse where
  component : String
  file : String
  mechanism : PeriodicMechanism
  deriving DecidableEq, Repr

def periodicUses : List PeriodicUse :=
  [ ⟨"AgentStatusPanel", "trading-agent-pro-v2/.../AgentStatusPanel.tsx",
      PeriodicMechanism.queryRefetch 10000⟩
  , ⟨"Header", "trading-agent-pro-v2/.../Header.tsx",
      PeriodicMechanism.queryRefetch 30000⟩
  , ⟨"Calendar", "trading-agent-pro-v2/.../Calendar.tsx",
      PeriodicMechanism.rawTimer 1000 "tick the IST clock state"⟩
  , ⟨"PerformancePanel", "trading-agent-pro-v2/.../Calendar.tsx",
      PeriodicMechanism.queryRefetch 30000⟩
  , ⟨"MistakeLog", "trading-agent-pro-v2/.../Calendar.tsx",
      PeriodicMechanism.queryRefetch 60000⟩
  , ⟨"Chat", "trading-agent-pro-v2/.../Chat.tsx",
      PeriodicMechanism.queryRefetch 5000⟩
  , ⟨"Analysis", "unnamed/part_003", PeriodicMechanism.queryRefetch 60000⟩
  , ⟨"Monitoring", "unnamed/part_004", PeriodicMechanism.queryRefetch 2000⟩
  , ⟨"Monitoring", "unnamed/part_004",
      PeriodicMechanism.rawTimer 2000 "append a simulated log line"⟩
  , ⟨"Monitoring (second variant)", "unnamed/part_004",
      PeriodicMechanism.rawTimer 1000 "recompute the uptime string"⟩
  , ⟨"Header", "unnamed/part_016",
      PeriodicMechanism.rawTimer 1000 "tick the clock state"⟩
  , ⟨"EvolutionLog", "unnamed/part_007", PeriodicMechanism.queryRefetch 60000⟩
  , ⟨"Calendar", "unnamed/part_005", PeriodicMechanism.queryRefetch 300000⟩
  , ⟨"Dashboard", "unnamed/part_002", PeriodicMechanism.queryRefetch 15000⟩
  , ⟨"Dashboard", "unnamed/part_002", PeriodicMechanism.queryRefetch 60000⟩
  , ⟨"Dashboard", "unnamed/part_002", PeriodicMechanism.queryRefetch 30000⟩
  , ⟨"useResearchStatus", "unnamed/part_018", PeriodicMechanism.queryRefetch 5000⟩
  , ⟨"usePrice", "unnamed/part_018", PeriodicMechanism.queryRefetch 5000⟩
  , ⟨"useMultiplePrices", "unnamed/part_018", PeriodicMechanism.queryRefetch 5000⟩
  , ⟨"useBinanceTopVolume", "unnamed/part_018", PeriodicMechanism.queryRefetch 30000⟩
  , ⟨"useMT5Status", "unnamed/part_018", PeriodicMechanism.queryRefetch 10000⟩
  , ⟨"useMT5Positions", "unnamed/part_018", PeriodicMechanism.queryRefetch 5000⟩
  , ⟨"useSentiment", "unnamed/part_018", PeriodicMechanism.queryRefetch 60000⟩
  , ⟨"useRedditData", "unnamed/part_018", PeriodicMechanism.queryRefetch 300000⟩
  , ⟨"useTelegramData", "unnamed/part_018", PeriodicMechanism.queryRefetch 300000⟩
  , ⟨"useMarketNews", "unnamed/part_018", PeriodicMechanism.queryRefetch 300000⟩
  , ⟨"useRSSSummary", "unnamed/part_018", PeriodicMechanism.queryRefetch 300000⟩
  , ⟨"useTechnicalAnalysis", "unnamed/part_018", PeriodicMechanism.queryRefetch 30000⟩
  , ⟨"useGenerateSignal", "unnamed/part_018", PeriodicMechanism.queryRefetch 60000⟩
  , ⟨"useActiveSignals", "unnamed/part_018", PeriodicMechanism.queryRefetch 30000⟩ ]

/-- Whether a periodic mechanism is a query-library refetch interval. -/
def usesQueryRefetch (u : PeriodicUse) : Bool :=
  match u.mechanism with
  | PeriodicMechanism.queryRefetch _ => true
  | PeriodicMechanism.rawTimer _ _ => false

/-! ## HTTP request surface of the frontend (claim C6)

Every axios / api-client request site in the frontend sources, as
(method, path template, issuing component or hook). Path parameters keep
their template form in braces; query strings are dropped (they do not
change the request path). The api client of unnamed/part_018 and the
trading-agent Dashboard use a base URL ending in /api/v1, so their
relative paths are recorded with that base. -/

structure ApiRequest where
  method : String
  path : String
  component : String
  deriving DecidableEq, Repr

def frontendRequests : List ApiRequest :=
  [ ⟨"GET", "/api/v1/consensus/latest", "AgentStatusPanel"⟩
  , ⟨"GET", "/api/v1/health", "Header (trading-agent-pro-v2)"⟩
  , ⟨"GET", "/api/v1/performance", "PerformancePanel"⟩
  , ⟨"GET", "/api/v1/mistakes", "MistakeLog"⟩
  , ⟨"POST", "/api/v1/chat/message", "Chat (trading-agent-pro-v2)"⟩
  , ⟨"POST", "/api/v1/agent/{action}", "Chat (trading-agent-pro-v2)"⟩
  , ⟨"POST", "/api/v1/chat/analyze-image", "Chat (trading-agent-pro-v2)"⟩
  , ⟨"GET", "/api/v1/settings/current", "Chat (trading-agent-pro-v2)"⟩
  , ⟨"GET", "/api/v1/chat/history", "Chat (trading-agent-pro-v2)"⟩
  , ⟨"GET", "/api/v1/agents", "Chat (trading-agent-pro-v2)"⟩
  , ⟨"GET", "/api/v1/settings/current", "Settings (trading-agent-pro-v2)"⟩
  , ⟨"POST", "/api/v1/settings/update", "Settings (trading-agent-pro-v2)"⟩
  , ⟨"POST", "/api/v1/settings/update", "Dashboard (trading-agent)"⟩
  , ⟨"POST", "/api/v1/settings/test-connection/{provider}", "Dashboard (trading-agent)"⟩
  , ⟨"GET", "/api/v1/analysis/{symbol}", "Analysis (unnamed/part_003)"⟩
  , ⟨"GET", "/api/v1/evolution/recent", "EvolutionLog"⟩
  , ⟨"GET", "/api/v1/calendar", "Calendar (unnamed/part_005)"⟩
  , ⟨"GET", "/api/v1/monitoring/status", "Monitoring (unnamed/part_004)"⟩
  , ⟨"GET", "/api/v1/market/prices", "Dashboard (unnamed/part_002)"⟩
  , ⟨"GET", "/api/v1/health", "Dashboard (unnamed/part_002)"⟩
  , ⟨"GET", "/api/v1/swarm/stats", "Dashboard (unnamed/part_002)"⟩
  , ⟨"GET", "/api/v1/chat/sessions", "Chat (unnamed/part_015)"⟩
  , ⟨"GET", "/api/v1/chat/session/{sessionId}/messages", "Chat (unnamed/part_015)"⟩
  , ⟨"POST", "/api/v1/chat/session/create", "Chat (unnamed/part_015)"⟩
  , ⟨"DELETE", "/api/v1/chat/session/{sessionId}", "Chat (unnamed/part_015)"⟩
  , ⟨"POST", "/api/v1/chat/image", "Chat (unnamed/part_015)"⟩
  , ⟨"POST", "/api/v1/chat/message", "Chat (unnamed/part_015)"⟩
  , ⟨"GET", "/api/v1/config", "useConfig (unnamed/part_018)"⟩
  , ⟨"GET", "/api/v1/settings/schema", "useSettingsSchema (unnamed/part_018)"⟩
  , ⟨"GET", "/api/v1/settings/current", "useCurrentSettings (unnamed/part_018)"⟩
  , ⟨"POST", "/api/v1/settings/update", "useUpdateSettings (unnamed/part_018)"⟩
  , ⟨"POST", "/api/v1/settings/test-connection/{provider}", "useTestConnection (unnamed/part_018)"⟩
  , ⟨"GET", "/api/v1/chat/sessions", "useChatSessions (unnamed/part_018)"⟩
  , ⟨"GET", "/api/v1/chat/session/{sessionId}/messages", "useChatMessages (unnamed/part_018)"⟩
  , ⟨"POST", "/api/v1/chat/session/create", "useCreateChatSession (unnamed/part_018)"⟩
  , ⟨"POST", "/api/v1/chat/message", "useSendMessage (unnamed/part_018)"⟩
  , ⟨"DELETE", "/api/v1/chat/session/{sessionId}", "useDeleteChatSession (unnamed/part_018)"⟩
  , ⟨"POST", "/api/v1/analysis/image", "useAnalyzeImage (unnamed/part_018)"⟩
  , ⟨"POST", "/api/v1/chat/image", "useChatWithImage (unnamed/part_018)"⟩
  , ⟨"POST", "/api/v1/research", "useStartResearch (unnamed/part_018)"⟩
  , ⟨"GET", "/api/v1/research/{taskId}/status", "useResearchStatus (unnamed/part_018)"⟩
  , ⟨"POST", "/api/v1/research/symbol/{symbol}", "useResearchSymbol (unnamed/part_018)"⟩
  , ⟨"GET", "/api/v1/market/price/{symbol}", "usePrice (unnamed/part_018)"⟩
  , ⟨"GET", "/api/v1/market/prices", "useMultiplePrices (unnamed/part_018)"⟩
  , ⟨"GET", "/api/v1/market/historical/{symbol}", "useHistoricalData (unnamed/part_018)"⟩
  , ⟨"GET", "/api/v1/market/binance/top-volume", "useBinanceTopVolume (unnamed/part_018)"⟩
  , ⟨"GET", "/api/v1/mt5/status", "useMT5Status (unnamed/part_018)"⟩
  , ⟨"GET", "/api/v1/mt5/account", "useMT5Account (unnamed/part_018)"⟩
  , ⟨"GET", "/api/v1/mt5/positions", "useMT5Positions (unnamed/part_018)"⟩
  , ⟨"GET", "/api/v1/sentiment/{symbol}", "useSentiment (unnamed/part_018)"⟩
  , ⟨"GET", "/api/v1/social/reddit/{symbol}", "useRedditData (unnamed/part_018)"⟩
  , ⟨"GET", "/api/v1/social/telegram/{symbol}", "useTelegramData (unnamed/part_018)"⟩
  , ⟨"GET", "/api/v1/news/market", "useMarketNews (unnamed/part_018)"⟩
  , ⟨"GET", "/api/v1/news/rss/summary", "useRSSSummary (unnamed/part_018)"⟩
  , ⟨"GET", "/api/v1/news/search", "useSearchNews (unnamed/part_018)"⟩
  , ⟨"GET", "/api/v1/analysis/{symbol}", "useTechnicalAnalysis (unnamed/part_018)"⟩
  , ⟨"GET", "/api/v1/signals/generate/{symbol}", "useGenerateSignal (unnamed/part_018)"⟩
  , ⟨"GET", "/api/v1/signals/active", "useActiveSignals (unnamed/part_018)"⟩
  , ⟨"GET", "/api/v1/pairs", "useTradingPairs (unnamed/part_018)"⟩ ]

/-- The endpoint list the spec gives as the externally visible surface. -/
def listedSurface : List String :=
  [ "market/prices", "signals", "analysis/{symbol}", "consensus/latest"
  , "performance", "mistakes", "evolution/recent", "chat/message"
  , "settings/*" ]

/-- Whether some frontend request targets a listed surface path: the
wildcard settings entry matches any request under /api/v1/settings/,
every other entry must be requested exactly (claim C6 wording). -/
def surfacePathRequested (p : String) : Bool :=
  if p == "settings/*" then
    frontendRequests.any (fun r => strHasPre "/api/v1/settings/" r.path)
  else
    frontendRequests.any (fun r => r.path == "/api/v1/" ++ p)

/-! ## Occurrences of the unimplemented backend class names (claim C7)

Every occurrence in the repository tree of ExecutionManager, SwarmFactory,
CircuitBreaker, RiskManager or the multi-agent Orchestrator name, with the
kind of text that contains it. All occurrences sit in markdown
documentation (prose, tables, or fenced example snippets inside markdown);
none is a definition in a code file, and none is under backend/app/. -/

structure NameOccurrence where
  name : String
  file : String
  line : Nat
  container : String
  deriving DecidableEq, Repr

def orchestrationNameOccurrences : List NameOccurrence :=
  [ ⟨"RiskManager", "kimi_fixed_inspect/kimi_agent_fixed/COMPLETE_INSTALLATION_GUIDE.md", 65, "markdown fenced snippet"⟩
  , ⟨"RiskManager", "kimi_fixed_inspect/kimi_agent_fixed/COMPLETE_INSTALLATION_GUIDE.md", 82, "markdown fenced snippet"⟩
  , ⟨"SwarmFactory", "kimi_fixed_inspect/kimi_agent_fixed/COMPLETE_INSTALLATION_GUIDE.md", 527, "markdown fenced snippet"⟩
  , ⟨"SwarmFactory", "kimi_fixed_inspect/kimi_agent_fixed/COMPLETE_INSTALLATION_GUIDE.md", 545, "markdown fenced snippet"⟩
  , ⟨"SwarmFactory", "kimi_fixed_inspect/kimi_agent_fixed/COMPLETE_INSTALLATION_GUIDE.md", 560, "markdown fenced snippet"⟩
  , ⟨"CircuitBreaker", "kimi_fixed_inspect/kimi_agent_fixed/COMPLETE_INSTALLATION_GUIDE.md", 802, "markdown prose"⟩
  , ⟨"ExecutionManager", "kimi_fixed_inspect/kimi_agent_fixed/PROJECT_STRUCTURE.md", 55, "markdown prose"⟩
  , ⟨"Orchestrator", "trading-agent-pro-v2/FILE_STRUCTURE.md", 21, "markdown prose"⟩
  , ⟨"ExecutionManager", "trading-agent-pro-v2/backend/migrations/002_agent_evolution.sql", 114, "markdown prose (appended Master AI Upgrade Prompt document)"⟩
  , ⟨"CircuitBreaker", "trading-agent-pro-v2/backend/migrations/002_agent_evolution.sql", 116, "markdown prose (appended Master AI Upgrade Prompt document)"⟩
  , ⟨"Orchestrator", "unnamed/part_008", 436, "markdown prose (appended README document)"⟩
  , ⟨"Orchestrator", "unnamed/part_011", 45, "markdown prose (changelog)"⟩
  , ⟨"Orchestrator", "unnamed/part_012", 51, "markdown prose (README)"⟩
  , ⟨"CircuitBreaker", "unnamed/part_014", 115, "markdown prose (README)"⟩ ]

/-- Whether an occurrence is inside markdown documentation rather than a
runnable code definition. -/
def inMarkdownProse (o : NameOccurrence) : Bool :=
  strHasPre "markdown" o.container

/-- Whether an occurrence lies under a backend/app/ source directory. -/
def underBackendApp (o : NameOccurrence) : Bool :=
  charsContain "backend/app/".data o.file.data

/-! # Theorems -/

/-! ## Helper lemmas -/

/-- One log tick always yields min (previous length + 1) 50 lines. -/
theorem appendLog_length (logs : List String) (entry : String) :
    (Monitoring.appendLog logs entry).length = min (logs.length + 1) 50 := by
  unfold Monitoring.appendLog
  by_cases h : (logs ++ [entry]).length > 50
  · simp only [h, if_pos]
    rw [List.length_drop]
    simp only [List.length_append, List.length_singleton] at h ⊢
    omega
  · simp only [h, if_neg, not_false_iff]
    simp only [List.length_append, List.length_singleton] at h ⊢
    omega

/-- A log tick ends with the line just appended. -/
theorem appendLog_getLast (logs : List String) (entry : String) :
    (Monitoring.appendLog logs entry).getLast? = some entry := by
  unfold Monitoring.appendLog
  by_cases h : (logs ++ [entry]).length > 50
  · simp only [h, if_pos]
    have hk : (logs ++ [entry]).length - 50 ≤ logs.length := by
      simp only [List.length_append, List.length_singleton]
      omega
    rw [List.drop_append_of_le_length hk, List.getLast?_concat]
  · simp only [h, if_neg, not_false_iff]
    exact List.getLast?_concat logs

/-- A log tick keeps a suffix (the most recent lines) of prev ++ new. -/
theorem appendLog_suffix (logs : List String) (entry : String) :
    (Monitoring.appendLog logs entry) <:+ logs ++ [entry] := by
  unfold Monitoring.appendLog
  by_cases h : (logs ++ [entry]).length > 50
  · simp only [h, if_pos]
    exact List.drop_suffix _ _
  · simp only [h, if_neg, not_false_iff]
    exact List.suffix_refl _

/-- Folding log ticks over any starting state of at most 50 lines keeps
the list at most 50 lines long. -/
theorem foldl_appendLog_le (entries : List String) :
    ∀ start : List String, start.length ≤ 50 →
      (entries.foldl Monitoring.appendLog start).length ≤ 50 := by
  induction entries with
  | nil => intro start h; simpa using h
  | cons e es ih =>
    intro start h
    simp only [List.foldl_cons]
    apply ih
    rw [appendLog_length]
    exact min_le_right _ _

/-! ## Claim theorems -/

/-- C8: on the Monitoring page the in-memory log list never exceeds 50
entries. The 2-second tick appends exactly one line at the end (the list
after a tick is a suffix of prev ++ new line, ends with the new line, and
has min (previous length + 1) 50 entries, so whenever the appended list
would exceed 50 only the most recent 50 are kept), and any sequence of
ticks starting from the empty initial list stays at most 50 lines long. -/
theorem monitoring_log_list_bounded :
    Monitoring.logTickMs = 2000
    ∧ (∀ logs entry,
        (Monitoring.appendLog logs entry).length = min (logs.length + 1) 50
        ∧ (Monitoring.appendLog logs entry).getLast? = some entry
        ∧ (Monitoring.appendLog logs entry) <:+ logs ++ [entry])
    ∧ (∀ entries : List String,
        (entries.foldl Monitoring.appendLog Monitoring.initialLogs).length ≤ 50) := by
  refine ⟨rfl, ?_, ?_⟩
  · intro logs entry
    exact ⟨appendLog_length logs entry, appendLog_getLast logs entry,
      appendLog_suffix logs entry⟩
  · intro entries
    exact foldl_appendLog_le entries Monitoring.initialLogs (by simp [Monitoring.initialLogs])

/-- C9: for every input value of SentimentGauge the needle angle equals
(clamp(value, -1, 1) + 1) * 90 and lies within [0, 180] degrees, while
the textual sentiment label is computed from the unclamped value (at the
out-of-range input 2 the needle is pinned at 180 while the label still
follows the raw value; symmetrically at -3). -/
theorem sentiment_gauge_needle_in_arc :
    (∀ v : ℚ, SentimentGauge.needleAngle v = (SentimentGauge.specClamp v + 1) * 90
      ∧ 0 ≤ SentimentGauge.needleAngle v
      ∧ SentimentGauge.needleAngle v ≤ 180)
    ∧ SentimentGauge.needleAngle 2 = 180
    ∧ SentimentGauge.sentimentLabel 2 = "Very Bullish"
    ∧ SentimentGauge.needleAngle (-3) = 0
    ∧ SentimentGauge.sentimentLabel (-3) = "Very Bearish" := by
  have hbounds : ∀ v : ℚ, -1 ≤ SentimentGauge.normalizedValue v
      ∧ SentimentGauge.normalizedValue v ≤ 1 := by
    intro v
    refine ⟨le_max_left _ _, max_le (by norm_num) (min_le_left _ _)⟩
  refine ⟨?_, ?_, ?_, ?_, ?_⟩
  · intro v
    obtain ⟨h1, h2⟩ := hbounds v
    unfold SentimentGauge.needleAngle SentimentGauge.specClamp
      SentimentGauge.normalizedValue at *
    refine ⟨rfl, by nlinarith, by nlinarith⟩
  · unfold SentimentGauge.needleAngle SentimentGauge.normalizedValue
    norm_num
  · unfold SentimentGauge.sentimentLabel
    norm_num
  · unfold SentimentGauge.needleAngle SentimentGauge.normalizedValue
    norm_num
  · unfold SentimentGauge.sentimentLabel
    norm_num

/-- C10: the unnamed-variant Calendar page reads the events field of the
fetched response: an object with an events array renders exactly those
events filtered by the selected impact level, while a response without an
events field, and in particular a bare JSON array of events, renders zero
events (the empty list), as does an undefined response. -/
theorem calendar_reads_events_field :
    (∀ (es : List CalendarPage.CalendarEvent) (filter : String),
      CalendarPage.filteredEvents
          (some (CalendarPage.CalendarResponse.objWithEvents es)) filter
        = es.filter (CalendarPage.impactMatches filter))
    ∧ (∀ (es : List CalendarPage.CalendarEvent) (filter : String),
      CalendarPage.filteredEvents
          (some (CalendarPage.CalendarResponse.bareArray es)) filter = [])
    ∧ (∀ filter : String,
      CalendarPage.filteredEvents
          (some CalendarPage.CalendarResponse.objNoEvents) filter = [])
    ∧ (∀ filter : String, CalendarPage.filteredEvents none filter = []) := by
  refine ⟨fun es filter => rfl, fun es filter => rfl, fun filter => rfl,
    fun filter => rfl⟩

/-- C4: on the fetching Analysis page, whenever the analysis query has
failed and the page is not in its initial loading state, the page body is
exactly the inline generic error panel titled Analysis Failed naming the
selected pair, and no liquidity-zone, order-block, FVG or price-action
content is shown; the render dispatch contains no other error branch. -/
theorem analysis_error_renders_error_panel
    (s : AnalysisPage.QueryState) (pair : String) (tab : AnalysisPage.Tab)
    (hErr : s.hasError = true)
    (hNotInitial : ¬(s.isLoading = true ∧ s.data = none)) :
    AnalysisPage.render s pair tab
      = AnalysisPage.View.errorView "Analysis Failed" pair
    ∧ AnalysisPage.showsDomainContent (AnalysisPage.render s pair tab) = false := by
  have hcond : (s.isLoading && s.data.isNone) = false := by
    cases hL : s.isLoading <;> cases hD : s.data
    · rfl
    · rfl
    · exact absurd ⟨hL, hD⟩ hNotInitial
    · simp [Option.isNone]
  unfold AnalysisPage.render
  rw [hcond, hErr]
  exact ⟨rfl, rfl⟩

/-- Witness for C4 at a concrete failed, non-loading query state. -/
theorem analysis_error_renders_error_panel_witness :
    ((⟨false, none, true⟩ : AnalysisPage.QueryState).hasError = true
      ∧ ¬((⟨false, none, true⟩ : AnalysisPage.QueryState).isLoading = true
          ∧ (⟨false, none, true⟩ : AnalysisPage.QueryState).data = none))
    ∧ AnalysisPage.render ⟨false, none, true⟩ "EURUSD" AnalysisPage.Tab.liquidity
        = AnalysisPage.View.errorView "Analysis Failed" "EURUSD" :=
  ⟨⟨rfl, by simp⟩,
    (analysis_error_renders_error_panel ⟨false, none, true⟩ "EURUSD"
      AnalysisPage.Tab.liquidity rfl (by simp)).1⟩

/-- C7: every occurrence in the repository of ExecutionManager,
SwarmFactory, CircuitBreaker, RiskManager or the multi-agent Orchestrator
name sits inside markdown documentation prose or example snippets; none
lies under a backend/app/ directory, and each of the five names occurs
only in such documentation contexts. -/
theorem orchestration_classes_doc_only :
    (orchestrationNameOccurrences.all inMarkdownProse) = true
    ∧ (orchestrationNameOccurrences.all (fun o => !underBackendApp o)) = true
    ∧ ((["ExecutionManager", "SwarmFactory", "CircuitBreaker", "RiskManager",
         "Orchestrator"].all
        (fun n => orchestrationNameOccurrences.any (fun o => o.name == n))) = true) := by
  refine ⟨?_, ?_, ?_⟩ <;> decide

/-- C1 counterexample: not every UI page fetches its displayed data from
REST. The trading-agent-pro-v2 Dashboard page is in the page inventory
with no HTTP request at all, and the market data and recent signals it
renders are hardcoded useState initial values (5 and 3 records). -/
theorem page_fetch_counterexample :
    (uiPages.all fetchesFromRest) = false
    ∧ (⟨"Dashboard", "trading-agent-pro-v2/frontend/src/pages/Dashboard.tsx",
        []⟩ : PageSource) ∈ uiPages
    ∧ ProV2Dashboard.marketDataInit.length = 5
    ∧ ProV2Dashboard.recentSignalsInit.length = 3 := by
  refine ⟨rfl, ?_, rfl, rfl⟩
  exact List.mem_cons_self _ _

/-- C1 amended: most page components obtain their data via HTTP requests
to REST endpoints (the pro-v2 Chat and Settings pages, the
unnamed-variant Dashboard, Analysis, Monitoring, Calendar and Chat pages,
and the trading-agent Dashboard, Settings, Analysis, Sentiment and
Signals pages, 13 in all), but five page components issue no HTTP request
and render hardcoded in-component state instead: the pro-v2 Dashboard
(5 market rows plus 3 signals), Signals (4 signals), Analysis
(3 + 2 + 2 + 3 records) and Calendar (8 events) pages, and the second
Monitoring variant of part_004 (4 initial log entries and 6 service
rows). -/
theorem page_fetch_amended :
    ((uiPages.filter (fun p => !fetchesFromRest p)).map
        (fun p => (p.page, p.file)))
      = [ ("Dashboard", "trading-agent-pro-v2/frontend/src/pages/Dashboard.tsx")
        , ("Signals", "trading-agent-pro-v2/frontend/src/pages/Signals.tsx")
        , ("Analysis", "trading-agent-pro-v2/frontend/src/pages/Analysis.tsx")
        , ("Calendar", "trading-agent-pro-v2/frontend/src/pages/Calendar.tsx")
        , ("Monitoring (second variant)", "unnamed/part_004") ]
    ∧ (uiPages.filter fetchesFromRest).length = 13
    ∧ ProV2Dashboard.marketDataInit.length = 5
    ∧ ProV2Dashboard.recentSignalsInit.length = 3
    ∧ ProV2Signals.signalsInit.length = 4
    ∧ ProV2Analysis.hardcodedListLengths = [3, 2, 2, 3]
    ∧ ProV2Calendar.eventsInit.length = 8
    ∧ MonitoringV2.logsInit.length = 4
    ∧ MonitoringV2.servicesList.length = 6 := by
  refine ⟨?_, rfl, rfl, rfl, rfl, rfl, rfl, rfl, rfl⟩
  decide

/-- C2 counterexample: when data is present the EvolutionLog panel does
not render exactly the fetched data: with nine fetched events the
timeline maps over events.slice(0, 8) and so renders only the first
eight of them. -/
theorem panels_render_counterexample :
    EvolutionLog.renderedEvents (some EvolutionLog.nineEvents)
      ≠ EvolutionLog.nineEvents
    ∧ (EvolutionLog.renderedEvents (some EvolutionLog.nineEvents)).length = 8
    ∧ EvolutionLog.nineEvents.length = 9 := by
  refine ⟨?_, rfl, rfl⟩
  intro h
  have := congrArg List.length h
  simp [EvolutionLog.renderedEvents, EvolutionLog.events,
    EvolutionLog.nineEvents] at this

/-- C2 amended: each panel issues its GET request on a fixed refetch
interval (AgentStatusPanel consensus/latest every 10 s, PerformancePanel
performance every 30 s, MistakeLog mistakes every 60 s, EvolutionLog
evolution/recent every 60 s); whenever the query has not yet returned
data each renders its fixed fallback (the NEUTRAL demo consensus with
score 0, 0 of 5 agents agreeing, not actionable, five NEUTRAL opinions
and reason System initializing; the all-zero metrics with is_paused
false; the zero-mistake record with empty lists; the empty event list);
when data is present the fetched data is rendered, except that
EvolutionLog shows only the first 8 fetched events and MistakeLog shows
only the first 3 corrective actions. -/
theorem panels_render_fetched_or_fallback :
    AgentStatusPanel.apiPath = "/api/v1/consensus/latest"
    ∧ AgentStatusPanel.refetchMs = 10000
    ∧ AgentStatusPanel.rendered none = AgentStatusPanel.fallbackConsensus
    ∧ AgentStatusPanel.fallbackConsensus.direction = "NEUTRAL"
    ∧ AgentStatusPanel.fallbackConsensus.consensus_score = 0
    ∧ AgentStatusPanel.fallbackConsensus.agreement_count = 0
    ∧ AgentStatusPanel.fallbackConsensus.total_agents = 5
    ∧ AgentStatusPanel.fallbackConsensus.is_actionable = false
    ∧ AgentStatusPanel.fallbackConsensus.opinions.length = 5
    ∧ (AgentStatusPanel.fallbackConsensus.opinions.all
        (fun op => op.2.vote == "NEUTRAL")) = true
    ∧ AgentStatusPanel.fallbackConsensus.reasons = ["System initializing..."]
    ∧ (∀ d, AgentStatusPanel.rendered (some d) = d)
    ∧ PerformancePanel.apiPath = "/api/v1/performance"
    ∧ PerformancePanel.refetchMs = 30000
    ∧ PerformancePanel.rendered none = PerformancePanel.fallbackPerf
    ∧ PerformancePanel.fallbackPerf
        = { win_rate := 0, total_trades := 0, total_pnl := 0
            max_drawdown_pct := 0, sharpe_ratio := 0, avg_rr := 0
            is_paused := false }
    ∧ (∀ d, PerformancePanel.rendered (some d) = d)
    ∧ MistakeLog.apiPath = "/api/v1/mistakes"
    ∧ MistakeLog.refetchMs = 60000
    ∧ MistakeLog.rendered none
        = { total_mistakes := 0, patterns := [], corrective_actions := [] }
    ∧ (∀ d, MistakeLog.rendered (some d) = d)
    ∧ (∀ m, MistakeLog.displayedActions m = m.corrective_actions.take 3)
    ∧ EvolutionLog.apiPath = "/api/v1/evolution/recent"
    ∧ EvolutionLog.refetchMs = 60000
    ∧ EvolutionLog.events none = []
    ∧ (∀ d, EvolutionLog.renderedEvents (some d) = d.take 8) := by
  refine ⟨rfl, rfl, rfl, rfl, rfl, rfl, rfl, rfl, rfl, by decide, rfl,
    fun d => rfl, rfl, rfl, rfl, rfl, fun d => rfl, rfl, rfl, rfl,
    ?_, fun m => rfl, rfl, rfl, rfl, fun d => rfl⟩
  intro d
  obtain ⟨t, ps, as⟩ := d
  unfold MistakeLog.rendered jsOrNat
  by_cases h : t = 0
  · subst h; rfl
  · simp [h]

/-- C3 counterexample: the schema encodes a further nontrivial uniqueness
constraint beyond the two claimed ones: model_performance_metrics has
the composite primary key (recorded_at, symbol, model_type), so the
tables with nontrivial uniqueness are not just market_data_ohlcv. -/
theorem schema_invariants_counterexample :
    SqlSchema.hasNontrivialUniqueness SqlSchema.model_performance_metrics = true
    ∧ SqlSchema.model_performance_metrics ∈ SqlSchema.schemaTables
    ∧ SqlSchema.model_performance_metrics.name ≠ "market_data_ohlcv"
    ∧ ((SqlSchema.schemaTables.filter SqlSchema.hasNontrivialUniqueness).map
        SqlSchema.Table.name ≠ ["market_data_ohlcv"]) := by
  refine ⟨rfl, ?_, ?_, ?_⟩ <;> decide

/-- C3 amended: the schema encodes exactly three nontrivial invariants:
uniqueness of (time, symbol, timeframe) for market_data_ohlcv rows and
uniqueness of (recorded_at, symbol, model_type) for
model_performance_metrics rows (the two composite primary keys), and
referential integrity between signals and outcomes (the single foreign
key of the schema, signal_outcomes.signal_id referencing
trading_signals.signal_id); every other table has only a single-column
surrogate primary key and the schema has no other foreign key. -/
theorem schema_invariants_amended :
    ((SqlSchema.schemaTables.filter SqlSchema.hasNontrivialUniqueness).map
        SqlSchema.Table.name)
      = ["market_data_ohlcv", "model_performance_metrics"]
    ∧ SqlSchema.market_data_ohlcv.primaryKey = ["time", "symbol", "timeframe"]
    ∧ SqlSchema.model_performance_metrics.primaryKey
        = ["recorded_at", "symbol", "model_type"]
    ∧ SqlSchema.schemaForeignKeys
        = [("signal_outcomes", ⟨"signal_id", "trading_signals", "signal_id"⟩)]
    ∧ (SqlSchema.schemaTables.all
        (fun t => SqlSchema.hasNontrivialUniqueness t
          || t.primaryKey.length == 1)) = true := by
  refine ⟨?_, rfl, rfl, ?_, ?_⟩ <;> decide

/-- C5 counterexample: not all periodic refreshing goes through the query
library: the Monitoring page drives its simulated log stream through its
own raw 2-second setInterval timer (with clearInterval cleanup), updating
component state outside TanStack Query. -/
theorem periodic_refetch_counterexample :
    (periodicUses.all usesQueryRefetch) = false
    ∧ (⟨"Monitoring", "unnamed/part_004",
        PeriodicMechanism.rawTimer 2000 "append a simulated log line"⟩
        : PeriodicUse) ∈ periodicUses := by
  refine ⟨rfl, ?_⟩
  decide

/-- C5 amended: periodic refetching of API data is performed via
refetchInterval, but four components drive periodic state updates through
their own raw setInterval timers with clearInterval cleanup: the pro-v2
Calendar clock (1 s), the Monitoring log simulation (2 s), the second
Monitoring variant uptime counter (1 s), and the unnamed Header clock
(1 s); all other periodic mechanisms in the inventory are query
refetch intervals. -/
theorem periodic_refetch_amended :
    ((periodicUses.filter (fun u => !usesQueryRefetch u)).map
        (fun u => (u.component, u.mechanism)))
      = [ ("Calendar", PeriodicMechanism.rawTimer 1000 "tick the IST clock state")
        , ("Monitoring", PeriodicMechanism.rawTimer 2000 "append a simulated log line")
        , ("Monitoring (second variant)",
            PeriodicMechanism.rawTimer 1000 "recompute the uptime string")
        , ("Header", PeriodicMechanism.rawTimer 1000 "tick the clock state") ]
    ∧ (periodicUses.filter usesQueryRefetch).length = 26 := by
  refine ⟨?_, ?_⟩ <;> decide

/-- C6 counterexample: the listed surface path signals is never requested
exactly: no frontend request targets /api/v1/signals (the signal
endpoints actually requested are /api/v1/signals/active and
/api/v1/signals/generate with a symbol parameter), so not every listed
path is requested. -/
theorem rest_surface_counterexample :
    surfacePathRequested "signals" = false
    ∧ "signals" ∈ listedSurface
    ∧ (listedSurface.all surfacePathRequested) = false
    ∧ (frontendRequests.all (fun r => !(r.path == "/api/v1/signals"))) = true := by
  refine ⟨?_, ?_, ?_, ?_⟩ <;> decide

/-- C6 amended: of the listed surface paths, every one except signals is
requested by some frontend component exactly as listed with the /api/v1
base (AgentStatusPanel GETs /api/v1/consensus/latest, the unnamed-variant
Dashboard GETs /api/v1/market/prices, the pro-v2 Chat page POSTs
/api/v1/chat/message, and the settings wildcard is matched by the
settings/current and settings/update requests); for signals, the
requests issued are GET /api/v1/signals/active and GET
/api/v1/signals/generate with a symbol parameter, and no component
requests /api/v1/signals itself. -/
theorem rest_surface_amended :
    (listedSurface.filter (fun p => !surfacePathRequested p)) = ["signals"]
    ∧ (⟨"GET", "/api/v1/consensus/latest", "AgentStatusPanel"⟩ : ApiRequest)
        ∈ frontendRequests
    ∧ (⟨"GET", "/api/v1/market/prices", "Dashboard (unnamed/part_002)"⟩
        : ApiRequest) ∈ frontendRequests
    ∧ (⟨"POST", "/api/v1/chat/message", "Chat (trading-agent-pro-v2)"⟩
        : ApiRequest) ∈ frontendRequests
    ∧ (frontendRequests.any
        (fun r => r.path == "/api/v1/signals/active")) = true
    ∧ (frontendRequests.any
        (fun r => r.path == "/api/v1/signals/generate/{symbol}")) = true
    ∧ (frontendRequests.all (fun r => !(r.path == "/api/v1/signals"))) = true := by
  refine ⟨?_, ?_, ?_, ?_, ?_, ?_, ?_⟩ <;> decide
